import Mathlib

/-!
Verification of the Simple-Excel-Merge utilities: a shallow embedding of
`merge_excel_files.py` and `split_excel_sheets.py`.

Python strings (file names, sheet names, console text) are modelled as
`List Char`; Python's lexicographic string order is the lexicographic
order on `List Char`, and Python's stable `sorted` is modelled by
`List.insertionSort (· ≤ ·)`.  A pandas `DataFrame` is modelled by
`Frame`: an ordered header list plus a list of rows (each row positioned
by column).  Reading a spreadsheet file either fails (`none`, any
exception raised by `pandas.read_excel`) or yields a `Frame`.  The
filesystem seen by `os.walk` is a list of `FsEntry` (plain files with
their read result, or subdirectories with their own entries).
-/

namespace ExcelMerge

/-- Python strings as lists of characters. -/
abbrev PyStr := List Char

/-- Conversion from Lean string literals, for concrete inputs. -/
def pystr (s : String) : PyStr := s.toList

/-- A pandas DataFrame: ordered column headers and rows of cell values
(cell type `α`); `df.columns.tolist()` is `headers`. -/
structure Frame (α : Type) where
  headers : List α
  rows : List (List α)
deriving Repr, DecidableEq

/-- Embedding of `pandas.read_excel(path, usecols=hs)` applied to a file
whose full read gave `f`: keep exactly the columns whose header is in
`hs`, in the order they occur in the file (pandas ignores the order of
the `usecols` list). -/
def selectCols {α : Type} [DecidableEq α] (hs : List α) (f : Frame α) : Frame α :=
  { headers := f.headers.filter (fun h => h ∈ hs),
    rows := f.rows.map (fun r => ((f.headers.zip r).filter (fun p => p.1 ∈ hs)).map Prod.snd) }

/-- Embedding of lines 126-129 of `merge_excel_files.py`:
`pandas.concat(frames, axis=0, ignore_index=True)` when `frames` is
nonempty (all frames in a run share the first frame's columns), `None`
when `frames` is empty. -/
def concatFrames {α : Type} (frames : List (Frame α)) : Option (Frame α) :=
  match frames with
  | [] => none
  | f :: rest => some { headers := f.headers, rows := f.rows ++ rest.flatMap Frame.rows }

/-- The loop state of `merge_excel_data_in_path`: the accumulated
`frames` list, the canonical `headers` captured from the first file
(`None` until captured), and the file paths for which the per-file
`except` handler ran (an `EE` error was printed). -/
structure MergeState (α : Type) where
  frames : List (Frame α)
  headers : Option (List α)
  errors : List PyStr
deriving Repr, DecidableEq

/-- The per-file `except` handler: log an error for the file and keep going. -/
def logError {α : Type} (st : MergeState α) (path : PyStr) : MergeState α :=
  { st with errors := st.errors ++ [path] }

/-- One iteration of the `for i, file_with_path in enumerate(...)` loop
(lines 102-124).  `i = 0`: capture headers and append the whole frame.
`i > 0`: read, compare the first `len(headers)` column names with the
canonical headers, and on match append the `usecols`-restricted frame.
A failed read, a `len(None)` `TypeError` (headers never captured), or
the raised header-mismatch `ValueError` all land in the handler. -/
def mergeStep {α : Type} [DecidableEq α] (i : Nat) (st : MergeState α)
    (file : PyStr × Option (Frame α)) : MergeState α :=
  match file with
  | (path, readResult) =>
    if i = 0 then
      match readResult with
      | some initialDataframe =>
        { frames := st.frames ++ [initialDataframe],
          headers := some initialDataframe.headers,
          errors := st.errors }
      | none => logError st path
    else
      match readResult with
      | some tempDataframe =>
        match st.headers with
        | none => logError st path
        | some hs =>
          if tempDataframe.headers.take hs.length = hs then
            { st with frames := st.frames ++ [selectCols hs tempDataframe] }
          else
            logError st path
      | none => logError st path

/-- The whole `enumerate` loop over the sorted file list. -/
def mergeLoop {α : Type} [DecidableEq α] :
    Nat → MergeState α → List (PyStr × Option (Frame α)) → MergeState α
  | _, st, [] => st
  | i, st, f :: fs => mergeLoop (i + 1) (mergeStep i st f) fs

/-- Running the loop from the initial state (`frames = []`, `headers = None`). -/
def runMergeLoop {α : Type} [DecidableEq α]
    (files : List (PyStr × Option (Frame α))) : MergeState α :=
  mergeLoop 0 { frames := [], headers := none, errors := [] } files

/-- The frames a list of subsequent (non-first) files contributes, given
canonical headers `hs`: per file, a successful read whose leading
`hs.length` column names equal `hs` contributes its `usecols`-restricted
frame; every other file contributes nothing.  Mirrors lines 112-124. -/
def acceptedFrames {α : Type} [DecidableEq α] (hs : List α)
    (files : List (PyStr × Option (Frame α))) : List (Frame α) :=
  files.filterMap (fun f =>
    match f.2 with
    | some df => if df.headers.take hs.length = hs then some (selectCols hs df) else none
    | none => none)

/-- The file paths among subsequent files for which the per-file handler
logs an error, given canonical headers `hs`: failed reads and
header mismatches.  Mirrors lines 112-124. -/
def rejectedNames {α : Type} [DecidableEq α] (hs : List α)
    (files : List (PyStr × Option (Frame α))) : List PyStr :=
  files.filterMap (fun f =>
    match f.2 with
    | some df => if df.headers.take hs.length = hs then none else some f.1
    | none => some f.1)

/-- A filesystem entry as seen by `os.walk`: a plain file (with the
result that `pandas.read_excel` would produce for it) or a
subdirectory. -/
inductive FsEntry (α : Type) where
  | file (name : PyStr) (content : Option (Frame α))
  | dir (name : PyStr) (entries : List (FsEntry α))

/-- The `files` component of the first `os.walk` tuple (the loop breaks
after the first iteration): the immediate plain-file children, with
their contents. -/
def topFiles {α : Type} : List (FsEntry α) → List (PyStr × Option (Frame α))
  | [] => []
  | FsEntry.file n c :: es => (n, c) :: topFiles es
  | FsEntry.dir _ _ :: es => topFiles es

/-- The eligible spreadsheet extensions of line 96. -/
def dotXlsx : PyStr := pystr ".xlsx"

/-- The second eligible extension of line 96. -/
def dotXls : PyStr := pystr ".xls"

/-- The reserved output-file marker of line 96. -/
def mergedMark : PyStr := pystr "merged_"

/-- Line 96: `file_name.endswith(('.xlsx', '.xls')) and not
file_name.startswith('merged_')`. -/
def isEligibleName (name : PyStr) : Bool :=
  (dotXlsx.isSuffixOf name || dotXls.isSuffixOf name) && !(mergedMark.isPrefixOf name)

/-- Lines 93-100: collect the eligible immediate file children and sort
them (`sorted`, Python lexicographic order; the common directory part of
the joined paths does not affect the relative order). -/
def excelFilesSorted {α : Type} (entries : List (FsEntry α)) : List PyStr :=
  List.insertionSort (· ≤ ·) (((topFiles entries).map Prod.fst).filter isEligibleName)

/-- Reading one named immediate child of the scanned directory. -/
def readTop {α : Type} (entries : List (FsEntry α)) (name : PyStr) : Option (Frame α) :=
  ((topFiles entries).lookup name).join

/-- Embedding of `merge_excel_data_in_path` (lines 87-124): run the
enumerate loop over the sorted eligible files. -/
def mergeExcelDataInPath {α : Type} [DecidableEq α]
    (entries : List (FsEntry α)) : MergeState α :=
  runMergeLoop ((excelFilesSorted entries).map (fun n => (n, readTop entries n)))

/-- The function's return value (lines 126-129). -/
def mergeResult {α : Type} [DecidableEq α] (entries : List (FsEntry α)) : Option (Frame α) :=
  concatFrames (mergeExcelDataInPath entries).frames

/-- A console line: `error`/`warn`/`log` print a `(ctx)` tag first,
plain `print` does not. -/
inductive LogMsg where
  | tagged (ctx : PyStr) (text : PyStr)
  | plain (text : PyStr)
deriving Repr, DecidableEq

/-- The `EE` context of the `error` helper. -/
def eeTag : PyStr := pystr "EE"

/-- The `--` context of the `info`/`log` helpers. -/
def infoTag : PyStr := pystr "--"

/-- Line 62 message text. -/
def msgNoArgsMerge : PyStr :=
  pystr "Error: No arguments given. Provide a path to a folder with Excel files to merge."

/-- Line 81 message text (plain print, no context tag). -/
def msgMkdirFail : PyStr := pystr "Error creating directory"

/-- Line 133 message text. -/
def msgLooking : PyStr := pystr "Looking for Excel files in given path to merge..."

/-- Line 135 message text. -/
def msgSelfPath : PyStr :=
  pystr "Error: Path same as script file path. Use a subfolder for files to be merged."

/-- Line 124 message text (the offending path is appended). -/
def msgErrorReading : PyStr := pystr "Error while reading "

/-- Line 153 message text. -/
def msgNoneFound : PyStr := pystr "No Excel files were found or successfully read."

/-- Line 147 message text. -/
def msgComplete : PyStr := pystr "Merge operation COMPLETE."

/-- One invocation of the merge CLI: the arguments after the script name
(`sys.argv[1:]`, taken as already-absolute paths), the directory of the
script itself, whether the input directory exists (the script never
consults this), whether `os.makedirs(target_dir_path, exist_ok=True)`
succeeds, and the entries of the scanned input directory. -/
structure MergeWorld (α : Type) where
  args : List PyStr
  scriptDir : PyStr
  inputDirExists : Bool
  makedirsOk : Bool
  entries : List (FsEntry α)

/-- The observable outcome of a merge run: process exit code, the
contents written to the timestamped `.xlsx` and `.csv` outputs (`none`
when nothing is written), whether the `merged_excel_files` target
directory was (already) created, and the tagged console lines. -/
structure MergeOutcome (α : Type) where
  exitCode : Nat
  writtenXlsx : Option (Frame α)
  writtenCsv : Option (Frame α)
  createdTargetDir : Bool
  messages : List LogMsg
deriving Repr, DecidableEq

/-- Embedding of the whole merge script in source order: the module-level
argument check (lines 61-63), the module-level `os.makedirs` (lines
78-82), then `main` (lines 132-153): the script-directory guard, the
merge, and either the dual write or the informational message. -/
def mergeCLI {α : Type} [DecidableEq α] (w : MergeWorld α) : MergeOutcome α :=
  match w.args with
  | [] =>
    { exitCode := 1, writtenXlsx := none, writtenCsv := none, createdTargetDir := false,
      messages := [LogMsg.tagged eeTag msgNoArgsMerge] }
  | inputDir :: _ =>
    if w.makedirsOk = false then
      { exitCode := 1, writtenXlsx := none, writtenCsv := none, createdTargetDir := false,
        messages := [LogMsg.plain msgMkdirFail] }
    else if inputDir = w.scriptDir then
      { exitCode := 1, writtenXlsx := none, writtenCsv := none, createdTargetDir := true,
        messages := [LogMsg.plain msgLooking, LogMsg.tagged eeTag msgSelfPath] }
    else
      let st := mergeExcelDataInPath w.entries
      let fileErrs := st.errors.map (fun p => LogMsg.tagged eeTag (msgErrorReading ++ p))
      match concatFrames st.frames with
      | some df =>
        { exitCode := 0, writtenXlsx := some df, writtenCsv := some df, createdTargetDir := true,
          messages := [LogMsg.plain msgLooking] ++ fileErrs ++ [LogMsg.plain msgComplete] }
      | none =>
        { exitCode := 0, writtenXlsx := none, writtenCsv := none, createdTargetDir := true,
          messages := [LogMsg.plain msgLooking] ++ fileErrs ++ [LogMsg.tagged infoTag msgNoneFound] }

/-- An openpyxl workbook: named sheets in defined order, each sheet a
list of rows of plain cell values (`values_only=True` view). -/
structure Workbook (α : Type) where
  sheets : List (PyStr × List (List α))
deriving Repr, DecidableEq

/-- The default sheet title of a fresh `openpyxl.Workbook()`. -/
def defaultSheetTitle : PyStr := pystr "Sheet"

/-- `openpyxl.Workbook()`: one empty sheet with the default title. -/
def newWorkbook {α : Type} : Workbook α := { sheets := [(defaultSheetTitle, [])] }

/-- `new_ws.title = sheet_name` on the active (first) sheet. -/
def setActiveTitle {α : Type} (wb : Workbook α) (title : PyStr) : Workbook α :=
  match wb.sheets with
  | [] => { sheets := [] }
  | s :: rest => { sheets := (title, s.2) :: rest }

/-- `new_ws.append(row)` on the active (first) sheet. -/
def appendRow {α : Type} (wb : Workbook α) (r : List α) : Workbook α :=
  match wb.sheets with
  | [] => { sheets := [] }
  | (t, rs) :: rest => { sheets := (t, rs ++ [r]) :: rest }

/-- The body of the per-sheet loop of `split_worksheets_to_files` (lines
77-89): build a fresh single-sheet workbook titled after the source
sheet, append the source rows in order, and save it as
`<sheet_name>.xlsx`. -/
def saveSheetAsWorkbook {α : Type} (name : PyStr) (rows : List (List α)) :
    PyStr × Workbook α :=
  (name ++ dotXlsx, rows.foldl appendRow (setActiveTitle newWorkbook name))

/-- Embedding of `split_worksheets_to_files` (lines 67-89): one saved
file per sheet, in the workbook's defined sheet order. -/
def splitWorksheetsToFiles {α : Type} (wb : Workbook α) : List (PyStr × Workbook α) :=
  wb.sheets.map (fun s => saveSheetAsWorkbook s.1 s.2)

/-- One invocation of the split CLI: `sys.argv[1:]`, whether the given
path `os.path.isfile`, and the workbook stored at that path. -/
structure SplitWorld (α : Type) where
  args : List PyStr
  fileExists : Bool
  wb : Workbook α

/-- The observable outcome of a split run. -/
structure SplitOutcome (α : Type) where
  exitCode : Nat
  saved : List (PyStr × Workbook α)
  messages : List LogMsg
deriving Repr, DecidableEq

/-- Line 46 message text of `split_excel_sheets.py`. -/
def msgNoArgsSplit : PyStr :=
  pystr "Error: No arguments given. Provide a path to an Excel file with multiple sheets."

/-- Line 93 message text (plain print). -/
def msgUsageSplit : PyStr := pystr "Usage: split_excel_sheets.py <excel_file>"

/-- Line 98 message text (plain print). -/
def msgFileNotFound : PyStr := pystr "Error: File not found."

/-- Line 89 confirmation text (the saved path is appended). -/
def msgSaved : PyStr := pystr "Saved: "

/-- Embedding of the whole split script in source order: the
module-level argument check (lines 45-47), then the `__main__` block
(lines 91-101): the exact-argument-count check (plain usage line), the
`os.path.isfile` check (plain error line), then the split; the script
then falls off the end of the file, exit code 0. -/
def splitCLI {α : Type} (w : SplitWorld α) : SplitOutcome α :=
  match w.args with
  | [] =>
    { exitCode := 1, saved := [], messages := [LogMsg.tagged eeTag msgNoArgsSplit] }
  | _ :: rest =>
    if rest ≠ [] then
      { exitCode := 1, saved := [], messages := [LogMsg.plain msgUsageSplit] }
    else if w.fileExists = false then
      { exitCode := 1, saved := [], messages := [LogMsg.plain msgFileNotFound] }
    else
      { exitCode := 0, saved := splitWorksheetsToFiles w.wb,
        messages := (splitWorksheetsToFiles w.wb).map (fun p => LogMsg.plain (msgSaved ++ p.1)) }

/-- Embedding of `pandas.read_excel` applied to a workbook saved by the
split utility: the first sheet's first row becomes the headers and the
remaining rows the data; an empty sheet gives an empty frame, a sheetless
workbook fails to read. -/
def readWorkbook {α : Type} (wb : Workbook α) : Option (Frame α) :=
  match wb.sheets with
  | [] => none
  | (_, grid) :: _ =>
    match grid with
    | [] => some { headers := [], rows := [] }
    | h :: t => some { headers := h, rows := t }

/-- The directory produced by a split run, as merge-scan entries. -/
def splitOutputEntries {α : Type} (wb : Workbook α) : List (FsEntry α) :=
  (splitWorksheetsToFiles wb).map (fun p => FsEntry.file p.1 (readWorkbook p.2))

/-- Split a workbook, then merge the resulting per-sheet files. -/
def roundTrip {α : Type} [DecidableEq α] (wb : Workbook α) : Option (Frame α) :=
  mergeResult (splitOutputEntries wb)

/-- Decidability of the file-name key order used by the merge scan over
split outputs. -/
instance sheetKeyLeDecidable {α : Type} :
    DecidableRel (fun (a b : PyStr × List (List α)) => a.1 ++ dotXlsx ≤ b.1 ++ dotXlsx) :=
  fun _ _ => inferInstanceAs (Decidable (_ ≤ _))

/-- A workbook's sheets reordered by the merge pipeline's lexicographic
order on the per-sheet output file names. -/
def sheetsInMergeOrder {α : Type} (wb : Workbook α) : List (PyStr × List (List α)) :=
  List.insertionSort (fun a b => a.1 ++ dotXlsx ≤ b.1 ++ dotXlsx) wb.sheets

/-- Whether a console line carries the `EE` context tag. -/
def isEE (m : LogMsg) : Bool :=
  match m with
  | LogMsg.tagged c _ => c == eeTag
  | LogMsg.plain _ => false

/-- Concrete directory: two readable files with identical headers. -/
def entriesTwoGood : List (FsEntry Nat) :=
  [FsEntry.file (pystr "b.xlsx") (some ⟨[1, 2], [[3, 4], [5, 6], [7, 8]]⟩),
   FsEntry.file (pystr "a.xlsx") (some ⟨[1, 2], [[9, 9], [8, 8]]⟩)]

/-- The read results of `entriesTwoGood`, as a function. -/
def framesTwoGood : PyStr → Frame Nat := fun n =>
  if n = pystr "a.xlsx" then ⟨[1, 2], [[9, 9], [8, 8]]⟩ else ⟨[1, 2], [[3, 4], [5, 6], [7, 8]]⟩

/-- Concrete directory: second file has a mismatched second column name. -/
def entriesMismatch : List (FsEntry Nat) :=
  [FsEntry.file (pystr "a.xlsx") (some ⟨[1, 2], [[5, 6]]⟩),
   FsEntry.file (pystr "b.xlsx") (some ⟨[1, 3], [[7, 8]]⟩)]

/-- Concrete directory: one eligible file that reads to a zero-row frame. -/
def entriesZeroRows : List (FsEntry Nat) :=
  [FsEntry.file (pystr "a.xlsx") (some ⟨[0], []⟩)]

/-- Concrete merge invocation over `entriesZeroRows`. -/
def worldZeroRows : MergeWorld Nat :=
  { args := [pystr "/data"], scriptDir := pystr "/opt", inputDirExists := true,
    makedirsOk := true, entries := entriesZeroRows }

/-- Concrete merge invocation over a directory with no files at all. -/
def worldEmptyDir : MergeWorld Nat :=
  { args := [pystr "/data"], scriptDir := pystr "/opt", inputDirExists := true,
    makedirsOk := true, entries := [] }

/-- Concrete merge invocation whose input directory does not exist. -/
def worldAbsentDir : MergeWorld Nat :=
  { args := [pystr "/data/missing"], scriptDir := pystr "/opt", inputDirExists := false,
    makedirsOk := true, entries := [] }

/-- Concrete merge invocation whose input directory is the script's own
directory (and which contains an eligible file). -/
def worldSelfDir : MergeWorld Nat :=
  { args := [pystr "/opt"], scriptDir := pystr "/opt", inputDirExists := true,
    makedirsOk := true,
    entries := [FsEntry.file (pystr "a.xlsx") (some ⟨[1], [[2]]⟩)] }

/-- Concrete merge invocation where creating the output directory fails. -/
def worldMkdirFail : MergeWorld Nat :=
  { args := [pystr "/data"], scriptDir := pystr "/opt", inputDirExists := true,
    makedirsOk := false, entries := [] }

/-- Concrete merge invocation with no arguments. -/
def worldNoArgsMerge : MergeWorld Nat :=
  { args := [], scriptDir := pystr "/opt", inputDirExists := true,
    makedirsOk := true, entries := [] }

/-- Concrete merge invocation whose first (and only) eligible files are
an unreadable first file followed by a readable one. -/
def worldFirstUnreadable : MergeWorld Nat :=
  { args := [pystr "/data"], scriptDir := pystr "/opt", inputDirExists := true,
    makedirsOk := true,
    entries := [FsEntry.file (pystr "a.xlsx") none,
                FsEntry.file (pystr "b.xlsx") (some ⟨[1], [[2]]⟩)] }

/-- Concrete split invocation with no arguments. -/
def worldNoArgsSplit : SplitWorld Nat :=
  { args := [], fileExists := true, wb := ⟨[]⟩ }

/-- Concrete split invocation with two arguments. -/
def worldTwoArgsSplit : SplitWorld Nat :=
  { args := [pystr "a.xlsx", pystr "b.xlsx"], fileExists := true, wb := ⟨[]⟩ }

/-- Concrete split invocation whose file is missing. -/
def worldMissingFileSplit : SplitWorld Nat :=
  { args := [pystr "a.xlsx"], fileExists := false, wb := ⟨[]⟩ }

/-- Concrete two-sheet workbook with identical header rows. -/
def wbTwoSheets : Workbook Nat :=
  ⟨[(pystr "Feb", [[10, 20], [1, 2]]), (pystr "Jan", [[10, 20], [3, 4], [5, 6]])]⟩

/-- Concrete workbook whose only sheet name starts with the reserved
`merged_` marker. -/
def wbReservedName : Workbook Nat := ⟨[(pystr "merged_a", [[1], [2]])]⟩

/-- Once the canonical headers are missing (first file unreadable), every
later iteration lands in the per-file handler: the loop only accumulates
error entries. -/
theorem mergeLoop_of_headers_none {α : Type} [DecidableEq α] :
    ∀ (files : List (PyStr × Option (Frame α))) (i : Nat) (fr : List (Frame α))
      (er : List PyStr), i ≠ 0 →
      mergeLoop i ⟨fr, none, er⟩ files = ⟨fr, none, er ++ files.map Prod.fst⟩
  | [], i, fr, er, _ => by simp [mergeLoop]
  | (path, c) :: fs, i, fr, er, hi => by
    have hs : mergeStep i ⟨fr, none, er⟩ (path, c) = ⟨fr, none, er ++ [path]⟩ := by
      cases c <;> simp [mergeStep, logError, hi]
    simp only [mergeLoop, hs, mergeLoop_of_headers_none fs (i + 1) fr (er ++ [path]) (by omega)]
    simp

/-- Once the canonical headers are captured, the rest of the loop
contributes exactly the accepted frames and logs exactly the rejected
names, in order. -/
theorem mergeLoop_of_headers_some {α : Type} [DecidableEq α] :
    ∀ (files : List (PyStr × Option (Frame α))) (i : Nat) (fr : List (Frame α))
      (hs : List α) (er : List PyStr), i ≠ 0 →
      mergeLoop i ⟨fr, some hs, er⟩ files =
        ⟨fr ++ acceptedFrames hs files, some hs, er ++ rejectedNames hs files⟩
  | [], i, fr, hs, er, _ => by simp [mergeLoop, acceptedFrames, rejectedNames]
  | (path, c) :: fs, i, fr, hs, er, hi => by
    match c with
    | none =>
      have hstep : mergeStep i ⟨fr, some hs, er⟩ (path, none) = ⟨fr, some hs, er ++ [path]⟩ := by
        simp [mergeStep, logError, hi]
      simp only [mergeLoop, hstep,
        mergeLoop_of_headers_some fs (i + 1) fr hs (er ++ [path]) (by omega)]
      simp [acceptedFrames, rejectedNames, List.filterMap_cons]
    | some df =>
      by_cases hmatch : df.headers.take hs.length = hs
      · have hstep : mergeStep i ⟨fr, some hs, er⟩ (path, some df)
            = ⟨fr ++ [selectCols hs df], some hs, er⟩ := by
          simp [mergeStep, hi, hmatch]
        simp only [mergeLoop, hstep,
          mergeLoop_of_headers_some fs (i + 1) (fr ++ [selectCols hs df]) hs er (by omega)]
        simp [acceptedFrames, rejectedNames, List.filterMap_cons, hmatch]
      · have hstep : mergeStep i ⟨fr, some hs, er⟩ (path, some df)
            = ⟨fr, some hs, er ++ [path]⟩ := by
          simp [mergeStep, logError, hi, hmatch]
        simp only [mergeLoop, hstep,
          mergeLoop_of_headers_some fs (i + 1) fr hs (er ++ [path]) (by omega)]
        simp [acceptedFrames, rejectedNames, List.filterMap_cons, hmatch]

/-- A run whose first sorted file reads successfully: the first frame is
kept whole, its headers become canonical, and the rest contributes the
accepted frames and rejected names. -/
theorem runMergeLoop_cons_some {α : Type} [DecidableEq α] (p : PyStr) (fz : Frame α)
    (rest : List (PyStr × Option (Frame α))) :
    runMergeLoop ((p, some fz) :: rest) =
      ⟨fz :: acceptedFrames fz.headers rest, some fz.headers,
        rejectedNames fz.headers rest⟩ := by
  have hstep : mergeStep 0 ⟨[], none, []⟩ (p, some fz) = ⟨[fz], some fz.headers, []⟩ := by
    simp [mergeStep]
  simp only [runMergeLoop, mergeLoop, hstep,
    mergeLoop_of_headers_some rest 1 [fz] fz.headers [] (by omega)]
  simp

/-- A run whose first sorted file fails to read: the canonical headers
are never captured, no frame is accumulated, and every file of the run
is logged as an error. -/
theorem runMergeLoop_cons_none {α : Type} [DecidableEq α] (p : PyStr)
    (rest : List (PyStr × Option (Frame α))) :
    runMergeLoop ((p, none) :: rest) = ⟨[], none, p :: rest.map Prod.fst⟩ := by
  have hstep : mergeStep 0 ⟨[], none, ([] : List PyStr)⟩ (p, (none : Option (Frame α)))
      = ⟨[], none, [p]⟩ := by
    simp [mergeStep, logError]
  simp only [runMergeLoop, mergeLoop, hstep,
    mergeLoop_of_headers_none rest 1 [] [p] (by omega)]
  simp

/-- When every subsequent file reads to a frame carrying exactly the
canonical headers, all of them are accepted. -/
theorem acceptedFrames_map_of_headers {α : Type} [DecidableEq α] {hs : List α}
    {fr : PyStr → Frame α} :
    ∀ {l : List PyStr}, (∀ n ∈ l, (fr n).headers = hs) →
      acceptedFrames hs (l.map (fun n => (n, some (fr n)))) =
        l.map (fun n => selectCols hs (fr n))
  | [], _ => rfl
  | a :: l, h => by
    have ha : (fr a).headers.take hs.length = hs := by
      rw [h a (by simp)]; exact List.take_length _
    simp only [List.map_cons, acceptedFrames, List.filterMap_cons, ha, if_pos]
    exact congrArg _ (acceptedFrames_map_of_headers (fun n hn => h n (by simp [hn])))

/-- When every subsequent file reads to a frame carrying exactly the
canonical headers, none of them is rejected. -/
theorem rejectedNames_map_of_headers {α : Type} [DecidableEq α] {hs : List α}
    {fr : PyStr → Frame α} :
    ∀ {l : List PyStr}, (∀ n ∈ l, (fr n).headers = hs) →
      rejectedNames hs (l.map (fun n => (n, some (fr n)))) = []
  | [], _ => rfl
  | a :: l, h => by
    have ha : (fr a).headers.take hs.length = hs := by
      rw [h a (by simp)]; exact List.take_length _
    simp only [List.map_cons, rejectedNames, List.filterMap_cons, ha, if_pos]
    exact rejectedNames_map_of_headers (fun n hn => h n (by simp [hn]))

/-- Membership in the scanned file-name list: exactly the names of
immediate plain-file children. -/
theorem mem_topFiles_map_fst {α : Type} {n : PyStr} :
    ∀ (entries : List (FsEntry α)),
      n ∈ (topFiles entries).map Prod.fst ↔ ∃ c, FsEntry.file n c ∈ entries
  | [] => by simp [topFiles]
  | FsEntry.file m c :: es => by
    simp only [topFiles, List.map_cons, List.mem_cons, mem_topFiles_map_fst es]
    constructor
    · intro h
      rcases h with h | ⟨c', hc'⟩
      · exact ⟨c, Or.inl (by rw [h])⟩
      · exact ⟨c', Or.inr hc'⟩
    · rintro ⟨c', h | h⟩
      · rcases FsEntry.file.inj h with ⟨h1, _⟩
        exact Or.inl h1

      · exact Or.inr ⟨c', h⟩
  | FsEntry.dir m sub :: es => by
    simp only [topFiles, List.mem_cons, mem_topFiles_map_fst es]
    constructor
    · rintro ⟨c', h⟩
      exact ⟨c', Or.inr h⟩
    · rintro ⟨c', h | h⟩
      · exact absurd h (by simp)
      · exact ⟨c', h⟩

/-- C1: for an input directory whose eligible files all read successfully
and share identical headers, the merged frame's row count is the sum of
the source files' row counts and its column sequence is the first
(lexicographically sorted) file's column sequence. -/
theorem merge_identical_headers_rowcount_and_columns {α : Type} [DecidableEq α]
    (entries : List (FsEntry α)) (fr : PyStr → Frame α) (nz : PyStr) (rest : List PyStr)
    (hsorted : excelFilesSorted entries = nz :: rest)
    (hread : ∀ n ∈ excelFilesSorted entries, readTop entries n = some (fr n))
    (hhead : ∀ n ∈ excelFilesSorted entries, (fr n).headers = (fr nz).headers) :
    ∃ F, mergeResult entries = some F ∧ F.headers = (fr nz).headers ∧
      F.rows.length = ((nz :: rest).map (fun n => (fr n).rows.length)).sum := by
  have hread' : ∀ n ∈ nz :: rest, readTop entries n = some (fr n) := hsorted ▸ hread
  have hhead' : ∀ n ∈ nz :: rest, (fr n).headers = (fr nz).headers := hsorted ▸ hhead
  have hH : ∀ n ∈ rest, (fr n).headers = (fr nz).headers := fun n hn =>
    hhead' n (List.mem_cons_of_mem _ hn)
  have hmap : (excelFilesSorted entries).map (fun n => (n, readTop entries n))
      = (nz, some (fr nz)) :: rest.map (fun n => (n, some (fr n))) := by
    rw [hsorted,
      List.map_congr_left (fun n hn => by rw [hread' n hn] :
        ∀ n ∈ nz :: rest, (n, readTop entries n) = (n, some (fr n))),
      List.map_cons]
  refine ⟨⟨(fr nz).headers,
    (fr nz).rows ++
      (rest.map (fun n => selectCols (fr nz).headers (fr n))).flatMap Frame.rows⟩, ?_, rfl, ?_⟩
  · rw [mergeResult, mergeExcelDataInPath, hmap, runMergeLoop_cons_some,
      acceptedFrames_map_of_headers hH]
    rfl
  · simp [selectCols, List.flatMap_def, List.map_map, Function.comp_def]

/-- C1 witness: the two-file directory `entriesTwoGood` merges to five
rows under the first file's headers. -/
theorem merge_identical_headers_rowcount_and_columns_witness :
    ∃ F, mergeResult entriesTwoGood = some F ∧
      F.headers = (framesTwoGood (pystr "a.xlsx")).headers ∧
      F.rows.length =
        ((pystr "a.xlsx" :: [pystr "b.xlsx"]).map
          (fun n => (framesTwoGood n).rows.length)).sum :=
  merge_identical_headers_rowcount_and_columns entriesTwoGood framesTwoGood
    (pystr "a.xlsx") [pystr "b.xlsx"] (by decide) (by decide) (by decide)

/-- C2: a non-first eligible file that reads successfully but whose
leading columns differ from the canonical headers is logged as an error
and contributes no frame, while the files before and after it are still
processed normally. -/
theorem merge_header_mismatch_skipped {α : Type} [DecidableEq α]
    (entries : List (FsEntry α)) (fz f : Frame α) (nz n : PyStr) (pre post : List PyStr)
    (hsorted : excelFilesSorted entries = nz :: (pre ++ n :: post))
    (hz : readTop entries nz = some fz)
    (hn : readTop entries n = some f)
    (hmis : f.headers.take fz.headers.length ≠ fz.headers) :
    n ∈ (mergeExcelDataInPath entries).errors ∧
    (mergeExcelDataInPath entries).frames =
      fz :: (acceptedFrames fz.headers (pre.map (fun m => (m, readTop entries m))) ++
        acceptedFrames fz.headers (post.map (fun m => (m, readTop entries m)))) := by
  have hrun : mergeExcelDataInPath entries =
      runMergeLoop ((nz, some fz) ::
        (pre.map (fun m => (m, readTop entries m)) ++
          ((n, some f) :: post.map (fun m => (m, readTop entries m))))) := by
    rw [mergeExcelDataInPath, hsorted, List.map_cons, hz, List.map_append, List.map_cons, hn]
  rw [hrun, runMergeLoop_cons_some]
  constructor
  · simp [rejectedNames, List.filterMap_append, List.filterMap_cons, hmis]
  · simp [acceptedFrames, List.filterMap_append, List.filterMap_cons, hmis]

/-- C2 witness: in `entriesMismatch` the file `b.xlsx` (headers `1,3`
against canonical `1,2`) is logged and contributes nothing. -/
theorem merge_header_mismatch_skipped_witness :
    pystr "b.xlsx" ∈ (mergeExcelDataInPath entriesMismatch).errors ∧
    (mergeExcelDataInPath entriesMismatch).frames =
      Frame.mk [1, 2] [[5, 6]] ::
        (acceptedFrames (Frame.mk [1, 2] [[5, 6]]).headers
            (([] : List PyStr).map (fun m => (m, readTop entriesMismatch m))) ++
          acceptedFrames (Frame.mk [1, 2] [[5, 6]]).headers
            (([] : List PyStr).map (fun m => (m, readTop entriesMismatch m)))) :=
  merge_header_mismatch_skipped entriesMismatch ⟨[1, 2], [[5, 6]]⟩ ⟨[1, 3], [[7, 8]]⟩
    (pystr "a.xlsx") (pystr "b.xlsx") [] [] (by decide) (by decide) (by decide) (by decide)

/-- C5: the scanned file list is sorted, contains exactly the eligible
immediate plain-file children of the input directory, and is unaffected
by subdirectories and their contents. -/
theorem merge_scan_eligible_sorted {α : Type} (entries : List (FsEntry α)) :
    List.Sorted (· ≤ ·) (excelFilesSorted entries) ∧
    (∀ n : PyStr, n ∈ excelFilesSorted entries ↔
      ((∃ c, FsEntry.file n c ∈ entries) ∧ isEligibleName n = true)) ∧
    (∀ (d : PyStr) (sub : List (FsEntry α)),
      excelFilesSorted (FsEntry.dir d sub :: entries) = excelFilesSorted entries) := by
  refine ⟨List.sorted_insertionSort _ _, fun n => ?_, fun d sub => rfl⟩
  rw [excelFilesSorted, (List.perm_insertionSort _ _).mem_iff, List.mem_filter,
    mem_topFiles_map_fst]

/-- Rows appended one by one to the active sheet accumulate in order. -/
theorem foldl_appendRow {α : Type} :
    ∀ (rows : List (List α)) (t : PyStr) (acc : List (List α))
      (rest : List (PyStr × List (List α))),
      rows.foldl appendRow (Workbook.mk ((t, acc) :: rest)) =
        Workbook.mk ((t, acc ++ rows) :: rest)
  | [], t, acc, rest => by simp
  | r :: rs, t, acc, rest => by
    simp only [List.foldl_cons, appendRow]
    rw [foldl_appendRow rs t (acc ++ [r]) rest, List.append_assoc]
    rfl

/-- The per-sheet loop body produces a single-sheet workbook titled after
the source sheet and holding exactly its rows. -/
theorem saveSheetAsWorkbook_eq {α : Type} (name : PyStr) (rows : List (List α)) :
    saveSheetAsWorkbook name rows = (name ++ dotXlsx, Workbook.mk [(name, rows)]) := by
  rw [saveSheetAsWorkbook]
  show (name ++ dotXlsx, rows.foldl appendRow (Workbook.mk [(name, [])])) = _
  rw [foldl_appendRow rows name [] []]
  rfl

/-- C3: splitting writes one file per sheet, in the workbook's sheet
order; each output is a single-sheet workbook titled after its source
sheet, named `<sheet>.xlsx`, and holding the source rows in order. -/
theorem split_one_file_per_sheet {α : Type} (wb : Workbook α) :
    (splitWorksheetsToFiles wb).length = wb.sheets.length ∧
    splitWorksheetsToFiles wb =
      wb.sheets.map (fun s => (s.1 ++ dotXlsx, Workbook.mk [(s.1, s.2)])) := by
  refine ⟨by simp [splitWorksheetsToFiles], ?_⟩
  rw [splitWorksheetsToFiles]
  exact List.map_congr_left (fun s _ => saveSheetAsWorkbook_eq s.1 s.2)

/-- C10: when the first eligible file fails to read, the canonical
headers are never captured, every file of the run is logged as an error,
no frame accumulates, nothing is written, and the exit code is 0. -/
theorem merge_first_file_unreadable_all_error {α : Type} [DecidableEq α]
    (w : MergeWorld α) (a : PyStr) (rest : List PyStr) (n : PyStr) (ns : List PyStr)
    (hargs : w.args = a :: rest)
    (hmk : w.makedirsOk = true)
    (hdir : a ≠ w.scriptDir)
    (hsorted : excelFilesSorted w.entries = n :: ns)
    (hfail : readTop w.entries n = none) :
    (mergeExcelDataInPath w.entries).frames = [] ∧
    (mergeExcelDataInPath w.entries).errors = n :: ns ∧
    (mergeCLI w).exitCode = 0 ∧ (mergeCLI w).writtenXlsx = none ∧
    (mergeCLI w).writtenCsv = none := by
  obtain ⟨args, sd, ex, mk, ent⟩ := w
  subst hargs
  subst hmk
  simp only at hsorted hfail hdir
  have hstate : mergeExcelDataInPath ent = ⟨[], none, n :: ns⟩ := by
    rw [mergeExcelDataInPath, hsorted, List.map_cons, hfail, runMergeLoop_cons_none]
    simp [List.map_map, Function.comp_def]
  refine ⟨by rw [hstate], by rw [hstate], ?_, ?_, ?_⟩ <;>
    simp [mergeCLI, hdir, hstate, concatFrames]

/-- C10 witness: `worldFirstUnreadable` (unreadable `a.xlsx`, readable
`b.xlsx`) logs both files as errors and produces nothing. -/
theorem merge_first_file_unreadable_all_error_witness :
    (mergeExcelDataInPath worldFirstUnreadable.entries).frames = [] ∧
    (mergeExcelDataInPath worldFirstUnreadable.entries).errors =
      pystr "a.xlsx" :: [pystr "b.xlsx"] ∧
    (mergeCLI worldFirstUnreadable).exitCode = 0 ∧
    (mergeCLI worldFirstUnreadable).writtenXlsx = none ∧
    (mergeCLI worldFirstUnreadable).writtenCsv = none :=
  merge_first_file_unreadable_all_error worldFirstUnreadable (pystr "/data") []
    (pystr "a.xlsx") [pystr "b.xlsx"] (by decide) (by decide) (by decide) (by decide)
    (by decide)

/-- C6 counterexample: in `worldZeroRows` the single eligible file reads
to a zero-row frame, so no file contributes any rows, yet the run writes
an output workbook (with zero rows) instead of reporting that nothing
was read. -/
theorem merge_no_frames_no_output_counterexample :
    ((mergeExcelDataInPath worldZeroRows.entries).frames.map
      (fun fr => fr.rows.length)).sum = 0 ∧
    (mergeCLI worldZeroRows).writtenXlsx = some ⟨[0], []⟩ ∧
    (mergeCLI worldZeroRows).exitCode = 0 := by decide

/-- C6 amended: when no file contributed a frame (the accumulated frame
list is empty, i.e. no eligible file was successfully read), nothing is
written, the informational message is reported, and the exit code is 0. -/
theorem merge_no_frames_no_output_amended {α : Type} [DecidableEq α]
    (w : MergeWorld α) (a : PyStr) (rest : List PyStr)
    (hargs : w.args = a :: rest) (hmk : w.makedirsOk = true) (hdir : a ≠ w.scriptDir)
    (hframes : (mergeExcelDataInPath w.entries).frames = []) :
    (mergeCLI w).exitCode = 0 ∧ (mergeCLI w).writtenXlsx = none ∧
    (mergeCLI w).writtenCsv = none ∧
    LogMsg.tagged infoTag msgNoneFound ∈ (mergeCLI w).messages := by
  obtain ⟨args, sd, ex, mk, ent⟩ := w
  subst hargs
  subst hmk
  simp only at hframes hdir
  have hcc : concatFrames (mergeExcelDataInPath ent).frames = none := by
    rw [hframes]
    rfl
  refine ⟨?_, ?_, ?_, ?_⟩ <;> simp [mergeCLI, hdir, hcc]

/-- C6 witness: a directory with no entries at all. -/
theorem merge_no_frames_no_output_amended_witness :
    (mergeCLI worldEmptyDir).exitCode = 0 ∧ (mergeCLI worldEmptyDir).writtenXlsx = none ∧
    (mergeCLI worldEmptyDir).writtenCsv = none ∧
    LogMsg.tagged infoTag msgNoneFound ∈ (mergeCLI worldEmptyDir).messages :=
  merge_no_frames_no_output_amended worldEmptyDir (pystr "/data") [] (by decide)
    (by decide) (by decide) (by decide)

/-- C7 counterexample: an invocation whose input directory does not exist
terminates with exit code 0, not 1 (the script never checks existence;
`os.makedirs` creates the missing directories). -/
theorem merge_absent_dir_counterexample :
    worldAbsentDir.inputDirExists = false ∧ (mergeCLI worldAbsentDir).exitCode = 0 := by
  decide

/-- C7 amended: with an absent input directory the run produces no merged
outputs; it exits 1 only when the directory creation itself fails, and
otherwise creates the directories, finds no files, and exits 0. -/
theorem merge_absent_dir_amended {α : Type} [DecidableEq α]
    (w : MergeWorld α) (a : PyStr) (rest : List PyStr)
    (hargs : w.args = a :: rest)
    (habsent : w.inputDirExists = false)
    (hempty : topFiles w.entries = [])
    (hdir : a ≠ w.scriptDir) :
    (mergeCLI w).writtenXlsx = none ∧ (mergeCLI w).writtenCsv = none ∧
    (mergeCLI w).exitCode = (if w.makedirsOk then 0 else 1) := by
  obtain ⟨args, sd, ex, mk, ent⟩ := w
  subst hargs
  subst habsent
  simp only at hempty hdir
  have hsorted : excelFilesSorted ent = [] := by
    simp [excelFilesSorted, hempty]
  have hrun : mergeExcelDataInPath ent = ⟨[], none, []⟩ := by
    rw [mergeExcelDataInPath, hsorted]
    rfl
  cases mk with
  | false => simp [mergeCLI]
  | true => simp [mergeCLI, hdir, hrun, concatFrames]

/-- C7 amended witness: `worldAbsentDir` succeeds in creating the target
directory, writes nothing, and exits 0. -/
theorem merge_absent_dir_amended_witness :
    (mergeCLI worldAbsentDir).writtenXlsx = none ∧
    (mergeCLI worldAbsentDir).writtenCsv = none ∧
    (mergeCLI worldAbsentDir).exitCode = (if worldAbsentDir.makedirsOk then 0 else 1) :=
  merge_absent_dir_amended worldAbsentDir (pystr "/data/missing") [] (by decide)
    (by decide) (by decide) (by decide)

/-- C8 counterexample: with the input directory equal to the script's
directory the process does exit 1, but only after the module-level
`os.makedirs` has already created the `merged_excel_files` subdirectory:
the filesystem is not left unchanged. -/
theorem merge_selfdir_guard_after_mkdir_counterexample :
    (mergeCLI worldSelfDir).exitCode = 1 ∧
    (mergeCLI worldSelfDir).createdTargetDir = true := by decide

/-- C8 amended: a self-referential run exits with code 1 and writes no
merged outputs, but the output subdirectory has already been created at
module load, before the guard in `main` runs. -/
theorem merge_selfdir_guard_after_mkdir_amended {α : Type} [DecidableEq α]
    (w : MergeWorld α) (a : PyStr) (rest : List PyStr)
    (hargs : w.args = a :: rest) (hself : a = w.scriptDir) (hmk : w.makedirsOk = true) :
    (mergeCLI w).exitCode = 1 ∧ (mergeCLI w).createdTargetDir = true ∧
    (mergeCLI w).writtenXlsx = none ∧ (mergeCLI w).writtenCsv = none := by
  obtain ⟨args, sd, ex, mk, ent⟩ := w
  subst hargs
  subst hmk
  simp only at hself
  subst hself
  simp [mergeCLI]

/-- C8 amended witness: `worldSelfDir`. -/
theorem merge_selfdir_guard_after_mkdir_amended_witness :
    (mergeCLI worldSelfDir).exitCode = 1 ∧
    (mergeCLI worldSelfDir).createdTargetDir = true ∧
    (mergeCLI worldSelfDir).writtenXlsx = none ∧
    (mergeCLI worldSelfDir).writtenCsv = none :=
  merge_selfdir_guard_after_mkdir_amended worldSelfDir (pystr "/opt") [] (by decide)
    (by decide) (by decide)

/-- C9 counterexample: the directory-creation failure is fatal with exit
code 1, but its console report is a plain `print` with no `EE` tag. -/
theorem fatal_errors_exit1_counterexample :
    (mergeCLI worldMkdirFail).exitCode = 1 ∧
    (mergeCLI worldMkdirFail).messages = [LogMsg.plain msgMkdirFail] ∧
    (mergeCLI worldMkdirFail).messages.any isEE = false := by decide

/-- C9 amended: every fatal argument/setup error of either CLI exits
with code 1, but only the missing-argument errors carry the `EE` tag;
the directory-creation failure (merge) and the wrong-argument-count and
missing-file errors (split) are reported by plain untagged prints. -/
theorem fatal_errors_exit1_amended (α : Type) [DecidableEq α] :
    (∀ w : MergeWorld α, w.args = [] →
      (mergeCLI w).exitCode = 1 ∧
      (mergeCLI w).messages = [LogMsg.tagged eeTag msgNoArgsMerge]) ∧
    (∀ (w : MergeWorld α) (a : PyStr) (rest : List PyStr),
      w.args = a :: rest → w.makedirsOk = false →
      (mergeCLI w).exitCode = 1 ∧ (mergeCLI w).messages = [LogMsg.plain msgMkdirFail]) ∧
    (∀ w : SplitWorld α, w.args = [] →
      (splitCLI w).exitCode = 1 ∧
      (splitCLI w).messages = [LogMsg.tagged eeTag msgNoArgsSplit]) ∧
    (∀ (w : SplitWorld α) (a b : PyStr) (rest : List PyStr), w.args = a :: b :: rest →
      (splitCLI w).exitCode = 1 ∧ (splitCLI w).messages = [LogMsg.plain msgUsageSplit]) ∧
    (∀ (w : SplitWorld α) (a : PyStr), w.args = [a] → w.fileExists = false →
      (splitCLI w).exitCode = 1 ∧ (splitCLI w).messages = [LogMsg.plain msgFileNotFound]) := by
  refine ⟨?_, ?_, ?_, ?_, ?_⟩
  · intro w h
    obtain ⟨args, sd, ex, mk, ent⟩ := w
    simp only at h
    subst h
    simp [mergeCLI]
  · intro w a rest h hmk
    obtain ⟨args, sd, ex, mk, ent⟩ := w
    simp only at h hmk
    subst h
    subst hmk
    simp [mergeCLI]
  · intro w h
    obtain ⟨args, fe, wb⟩ := w
    simp only at h
    subst h
    simp [splitCLI]
  · intro w a b rest h
    obtain ⟨args, fe, wb⟩ := w
    simp only at h
    subst h
    simp [splitCLI]
  · intro w a h hfe
    obtain ⟨args, fe, wb⟩ := w
    simp only at h hfe
    subst h
    subst hfe
    simp [splitCLI]

/-- C9 amended witness: one concrete invocation per fatal case. -/
theorem fatal_errors_exit1_amended_witness :
    ((mergeCLI worldNoArgsMerge).exitCode = 1 ∧
      (mergeCLI worldNoArgsMerge).messages = [LogMsg.tagged eeTag msgNoArgsMerge]) ∧
    ((mergeCLI worldMkdirFail).exitCode = 1 ∧
      (mergeCLI worldMkdirFail).messages = [LogMsg.plain msgMkdirFail]) ∧
    ((splitCLI worldNoArgsSplit).exitCode = 1 ∧
      (splitCLI worldNoArgsSplit).messages = [LogMsg.tagged eeTag msgNoArgsSplit]) ∧
    ((splitCLI worldTwoArgsSplit).exitCode = 1 ∧
      (splitCLI worldTwoArgsSplit).messages = [LogMsg.plain msgUsageSplit]) ∧
    ((splitCLI worldMissingFileSplit).exitCode = 1 ∧
      (splitCLI worldMissingFileSplit).messages = [LogMsg.plain msgFileNotFound]) :=
  ⟨(fatal_errors_exit1_amended Nat).1 worldNoArgsMerge (by decide),
   (fatal_errors_exit1_amended Nat).2.1 worldMkdirFail (pystr "/data") []
     (by decide) (by decide),
   (fatal_errors_exit1_amended Nat).2.2.1 worldNoArgsSplit (by decide),
   (fatal_errors_exit1_amended Nat).2.2.2.1 worldTwoArgsSplit (pystr "a.xlsx")
     (pystr "b.xlsx") [] (by decide),
   (fatal_errors_exit1_amended Nat).2.2.2.2 worldMissingFileSplit (pystr "a.xlsx")
     (by decide) (by decide)⟩

/-- Restricting a frame to its own headers changes nothing when its rows
are rectangular. -/
theorem selectCols_self {α : Type} [DecidableEq α] (H : List α) (rows : List (List α))
    (hlen : ∀ r ∈ rows, r.length = H.length) :
    selectCols H ⟨H, rows⟩ = ⟨H, rows⟩ := by
  rw [selectCols]
  refine congrArg₂ Frame.mk ?_ ?_
  · exact List.filter_eq_self.mpr (fun a ha => by simp [ha])
  · refine (List.map_congr_left ?_).trans (List.map_id rows)
    intro r hr
    have hfilter : (H.zip r).filter (fun p => p.1 ∈ H) = H.zip r :=
      List.filter_eq_self.mpr (fun p hp => by simp [(List.of_mem_zip hp).1])
    show ((H.zip r).filter (fun p => p.1 ∈ H)).map Prod.snd = r
    rw [hfilter, List.map_snd_zip H r (le_of_eq (hlen r hr))]

/-- Generalisation of `acceptedFrames_map_of_headers` to keyed lists:
subsequent files generated from data `l` by a name function `k` and a
frame function `g` are all accepted when every generated frame carries
exactly the canonical headers. -/
theorem acceptedFrames_map_key {α β : Type} [DecidableEq α] (hs : List α) (k : β → PyStr)
    (g : β → Frame α) :
    ∀ (l : List β), (∀ s ∈ l, (g s).headers = hs) →
      acceptedFrames hs (l.map (fun s => (k s, some (g s)))) =
        l.map (fun s => selectCols hs (g s))
  | [], _ => rfl
  | a :: l, h => by
    have ha : (g a).headers.take hs.length = hs := by
      rw [h a (by simp)]; exact List.take_length _
    simp only [List.map_cons, acceptedFrames, List.filterMap_cons, ha, if_pos]
    exact congrArg _ (acceptedFrames_map_key hs k g l (fun s hsm => h s (by simp [hsm])))

/-- Keyed version of `rejectedNames_map_of_headers`: nothing is rejected
when every generated frame carries exactly the canonical headers. -/
theorem rejectedNames_map_key {α β : Type} [DecidableEq α] (hs : List α) (k : β → PyStr)
    (g : β → Frame α) :
    ∀ (l : List β), (∀ s ∈ l, (g s).headers = hs) →
      rejectedNames hs (l.map (fun s => (k s, some (g s)))) = []
  | [], _ => rfl
  | a :: l, h => by
    have ha : (g a).headers.take hs.length = hs := by
      rw [h a (by simp)]; exact List.take_length _
    simp only [List.map_cons, rejectedNames, List.filterMap_cons, ha, if_pos]
    exact rejectedNames_map_key hs k g l (fun s hsm => h s (by simp [hsm]))

/-- The split output directory consists of one file entry per sheet. -/
theorem splitOutputEntries_eq {α : Type} (wb : Workbook α) :
    splitOutputEntries wb =
      wb.sheets.map (fun s =>
        FsEntry.file (s.1 ++ dotXlsx) (readWorkbook (Workbook.mk [(s.1, s.2)]))) := by
  rw [splitOutputEntries, splitWorksheetsToFiles, List.map_map]
  refine List.map_congr_left (fun s _ => ?_)
  show (fun p => FsEntry.file p.1 (readWorkbook p.2)) (saveSheetAsWorkbook s.1 s.2) = _
  rw [saveSheetAsWorkbook_eq]

/-- Scanning a directory of generated plain files yields the generated
name/content association list. -/
theorem topFiles_map_file {α β : Type} (k : β → PyStr) (v : β → Option (Frame α)) :
    ∀ (l : List β),
      topFiles (l.map (fun s => FsEntry.file (k s) (v s))) = l.map (fun s => (k s, v s))
  | [] => rfl
  | a :: l => by
    simp only [List.map_cons, topFiles]
    exact congrArg _ (topFiles_map_file k v l)

/-- Association-list lookup over a keyed map with duplicate-free keys. -/
theorem lookup_map_key {α β : Type} (k : β → PyStr) (v : β → Option (Frame α)) :
    ∀ (l : List β), (l.map k).Nodup → ∀ s ∈ l,
      (l.map (fun t => (k t, v t))).lookup (k s) = some (v s)
  | [], _, s, hs => absurd hs (List.not_mem_nil s)
  | t :: ts, hnd, s, hs => by
    rw [List.map_cons] at hnd
    have hnd' := List.nodup_cons.mp hnd
    rcases List.mem_cons.mp hs with he | hmem
    · subst he
      simp [List.lookup]
    · have hne : (k s == k t) = false := by
        rw [beq_eq_false_iff_ne]
        intro he
        exact hnd'.1 (he ▸ List.mem_map_of_mem k hmem)
      simp only [List.map_cons, List.lookup, hne]
      exact lookup_map_key k v ts hnd'.2 s hmem

/-- The merge scan over a split output directory lists exactly the
per-sheet file names, in the order of `sheetsInMergeOrder`. -/
theorem excelFilesSorted_split {α : Type} (wb : Workbook α)
    (helig : ∀ s ∈ wb.sheets, isEligibleName (s.1 ++ dotXlsx) = true) :
    excelFilesSorted (splitOutputEntries wb) =
      (sheetsInMergeOrder wb).map (fun s => s.1 ++ dotXlsx) := by
  rw [excelFilesSorted, splitOutputEntries_eq, topFiles_map_file, List.map_map]
  have hnames : (wb.sheets.map
      (Prod.fst ∘ fun s => (s.1 ++ dotXlsx, readWorkbook (Workbook.mk [(s.1, s.2)]))))
      = wb.sheets.map (fun s => s.1 ++ dotXlsx) := rfl
  rw [hnames, List.filter_eq_self.mpr (fun a ha => by
    rcases List.mem_map.mp ha with ⟨s, hsm, he⟩
    exact he ▸ helig s hsm)]
  rw [sheetsInMergeOrder,
    List.map_insertionSort (fun a b => a.1 ++ dotXlsx ≤ b.1 ++ dotXlsx) (· ≤ ·)
      (fun s => s.1 ++ dotXlsx) wb.sheets (fun a _ b _ => Iff.rfl)]

/-- C4 counterexample: a workbook whose only sheet is named `merged_a`
(one header row, one data row); its split output file is excluded by the
reserved-marker filter, so the round trip yields nothing even though the
workbook had a data row. -/
theorem split_merge_roundTrip_counterexample :
    roundTrip wbReservedName = none ∧
    wbReservedName.sheets.flatMap (fun s => s.2.tail) ≠ [] := by decide

/-- C4 amended: for a workbook with duplicate-free sheet names whose
generated file names all pass the eligibility filter (in particular, no
sheet name starting with the reserved `merged_` marker), and whose
sheets are rectangular grids sharing the identical header row `H`,
splitting and then merging reproduces exactly the data rows of every
sheet, each sheet's internal order preserved, in the merge pipeline's
lexicographic file-name order. -/
theorem split_merge_roundTrip_amended {α : Type} [DecidableEq α]
    (wb : Workbook α) (H : List α)
    (hne : wb.sheets ≠ [])
    (hnd : (wb.sheets.map (fun s => s.1 ++ dotXlsx)).Nodup)
    (helig : ∀ s ∈ wb.sheets, isEligibleName (s.1 ++ dotXlsx) = true)
    (hhead : ∀ s ∈ wb.sheets, s.2.head? = some H)
    (hlen : ∀ s ∈ wb.sheets, ∀ r ∈ s.2, r.length = H.length) :
    roundTrip wb = some ⟨H, (sheetsInMergeOrder wb).flatMap (fun s => s.2.tail)⟩ := by
  have hperm : List.Perm (sheetsInMergeOrder wb) wb.sheets := List.perm_insertionSort _ _
  have hread : ∀ s ∈ wb.sheets,
      readWorkbook (Workbook.mk [(s.1, s.2)]) = some (Frame.mk H s.2.tail) := by
    intro s hs
    have hh := hhead s hs
    cases h2 : s.2 with
    | nil => rw [h2] at hh; simp at hh
    | cons hd tl =>
      rw [h2] at hh
      simp only [List.head?] at hh
      have hhd : hd = H := by injection hh
      rw [hhd]
      rfl
  have hfiles : (excelFilesSorted (splitOutputEntries wb)).map
        (fun n => (n, readTop (splitOutputEntries wb) n))
      = (sheetsInMergeOrder wb).map
        (fun s => (s.1 ++ dotXlsx, some (Frame.mk H s.2.tail))) := by
    rw [excelFilesSorted_split wb helig, List.map_map]
    refine List.map_congr_left (fun s hs' => ?_)
    have hs : s ∈ wb.sheets := hperm.subset hs'
    show (s.1 ++ dotXlsx, readTop (splitOutputEntries wb) (s.1 ++ dotXlsx)) = _
    rw [readTop, splitOutputEntries_eq, topFiles_map_file,
      lookup_map_key (fun t => t.1 ++ dotXlsx)
        (fun t => readWorkbook (Workbook.mk [(t.1, t.2)])) wb.sheets hnd s hs,
      hread s hs]
    rfl
  obtain ⟨sz, srest, hcons⟩ : ∃ sz srest, sheetsInMergeOrder wb = sz :: srest := by
    cases h : sheetsInMergeOrder wb with
    | nil =>
      rw [h] at hperm
      exact absurd hperm.symm.eq_nil hne
    | cons a l => exact ⟨a, l, rfl⟩
  have hmem_rest : ∀ s ∈ srest, s ∈ wb.sheets := fun s hsm =>
    hperm.subset (hcons ▸ List.mem_cons_of_mem sz hsm)
  have hmem_z : sz ∈ wb.sheets := hperm.subset (hcons ▸ List.mem_cons_self sz srest)
  rw [roundTrip, mergeResult, mergeExcelDataInPath, hfiles, hcons, List.map_cons,
    runMergeLoop_cons_some]
  show concatFrames (Frame.mk H sz.2.tail ::
      acceptedFrames H (srest.map (fun s => (s.1 ++ dotXlsx, some (Frame.mk H s.2.tail)))))
    = some ⟨H, (sz :: srest).flatMap (fun s => s.2.tail)⟩
  rw [acceptedFrames_map_key H (fun s => s.1 ++ dotXlsx) (fun s => Frame.mk H s.2.tail)
    srest (fun s _ => rfl)]
  have hsel : srest.map (fun s => selectCols H (Frame.mk H s.2.tail))
      = srest.map (fun s => Frame.mk H s.2.tail) :=
    List.map_congr_left (fun s hsm =>
      selectCols_self H s.2.tail
        (fun r hr => hlen s (hmem_rest s hsm) r (List.mem_of_mem_tail hr)))
  rw [hsel]
  simp [concatFrames, List.flatMap_def, List.map_map, Function.comp_def]

/-- C4 amended witness: the two-sheet workbook `wbTwoSheets` (sheets
`Feb`, `Jan`, common header row `10,20`) round-trips to its data rows in
merge order. -/
theorem split_merge_roundTrip_amended_witness :
    roundTrip wbTwoSheets =
      some ⟨[10, 20], (sheetsInMergeOrder wbTwoSheets).flatMap (fun s => s.2.tail)⟩ :=
  split_merge_roundTrip_amended wbTwoSheets [10, 20] (by decide) (by decide) (by decide)
    (by decide) (by decide)

end ExcelMerge
